import Mathlib

/-!
Verification of the stock-analysis backend (`backend/langgraph_service.py`,
`backend/react_agent_service.py`).

Conventions of the shallow embedding:
* Python floats are modelled as rationals (`ℚ`).
* A Python dict field that a pipeline stage may leave absent, fill with a
  result, or fill with `{"error": msg}` is modelled by `Slot α`.
* The caller-supplied portfolio dict is modelled by `Portfolio`: `keys` is the
  list of top-level keys of the dict (so `len(portfolio)` is `keys.length`),
  `positions` the association list behind the "positions" key (an entry being
  present models a truthy, non-empty position dict), `total_value` the number
  behind "total_value" (0 when the key is absent, matching `.get(..., 0)`).
* Network fetches and in-stage exceptions are modelled with `Except String`:
  each stage's `try/except` wrapper pattern-matches on it, writing
  `{"error": msg}` into its own state field on failure, exactly as the code's
  `except Exception as e` blocks do.
-/

/-- State of one dict-valued field of the pipeline's `AnalysisState`:
absent, a successful result, or the `{"error": msg}` dict a stage writes
when its body raised. -/
inductive Slot (α : Type) where
  | unset : Slot α
  | ok : α → Slot α
  | error : String → Slot α
deriving Repr, DecidableEq

/-- One entry of the portfolio's `positions` mapping
(`{"shares": ..., "avg_cost": ...}`, each `.get` defaulting to 0). -/
structure Position where
  shares : ℚ
  avg_cost : ℚ
deriving Repr, DecidableEq

/-- The caller-supplied portfolio dict (see the embedding conventions above). -/
structure Portfolio where
  keys : List String
  positions : List (String × Position)
  total_value : ℚ
deriving Repr, DecidableEq

/-- `langgraph_service.StockAnalysisAgent._should_analyze_portfolio`:
`state.get("portfolio") is not None and len(state["portfolio"]) > 0`.
Note that `len` is taken of the whole portfolio dict, not of `positions`. -/
def should_analyze_portfolio (p : Option Portfolio) : Bool :=
  match p with
  | none => false
  | some q => decide (0 < q.keys.length)

/-- The part of `state["stock_data"]` later stages read: the quote price
`float(stock_data.get("quote", {}).get("05. price", 0))` (0 when the quote
payload was empty or degraded). -/
structure StockData where
  price : ℚ
deriving Repr, DecidableEq

/-- Raw technical-indicator series as fetched by `_perform_technical_analysis`:
`"Technical Analysis: SMA"` / `"Technical Analysis: RSI"` date-keyed maps,
already narrowed to the one numeric value the code extracts per date. -/
structure TechFetch where
  sma_series : List (String × ℚ)
  rsi_series : List (String × ℚ)
deriving Repr, DecidableEq

/-- `sorted(data.keys())[0]`: the lexicographically least date key. -/
def firstSortedKey (series : List (String × ℚ)) : Option String :=
  (series.map (fun kv => kv.1)).min?

/-- The value the code extracts from a series: `None` when the series is
empty, else the value at `sorted(keys)[0]`. -/
def latestValue (series : List (String × ℚ)) : Option ℚ :=
  match firstSortedKey series with
  | none => none
  | some k => (series.find? (fun kv => kv.1 = k)).map (fun kv => kv.2)

/-- The `"analysis"` sub-dict of `state["technical_data"]`. -/
structure TechAnalysis where
  sma : Option ℚ
  rsi : Option ℚ
  trend : String
  strength : String
deriving Repr, DecidableEq

/-- `"bullish" if latest_rsi and latest_rsi > 50 else "bearish"`
(`latest_rsi` is falsy when `None` or `0.0`). -/
def trendOf (rsi : Option ℚ) : String :=
  match rsi with
  | none => "bearish"
  | some v => if v ≠ 0 ∧ 50 < v then "bullish" else "bearish"

/-- `"strong" if latest_rsi and (latest_rsi > 70 or latest_rsi < 30) else "moderate"`. -/
def strengthOf (rsi : Option ℚ) : String :=
  match rsi with
  | none => "moderate"
  | some v => if v ≠ 0 ∧ (70 < v ∨ v < 30) then "strong" else "moderate"

/-- Body of `_perform_technical_analysis` lines 146-167. -/
def techAnalysisOf (f : TechFetch) : TechAnalysis :=
  let latest_sma := latestValue f.sma_series
  let latest_rsi := latestValue f.rsi_series
  { sma := latest_sma
    rsi := latest_rsi
    trend := trendOf latest_rsi
    strength := strengthOf latest_rsi }

/-- One item of the `NEWS_SENTIMENT` feed as `_analyze_news_sentiment` reads
it: `overall_sentiment_label` (default `"neutral"`) and
`overall_sentiment_score` (default 0). -/
structure NewsItem where
  overall_sentiment_label : String
  overall_sentiment_score : ℚ
deriving Repr, DecidableEq

/-- The `"sentiment_summary"` sub-dict of `state["news_data"]`. -/
structure SentimentSummary where
  positive : Nat
  negative : Nat
  neutral : Nat
  average_score : ℚ
  overall_sentiment : String
deriving Repr, DecidableEq

/-- `state["news_data"]` on success. -/
structure NewsData where
  news_items : List NewsItem
  sentiment_summary : SentimentSummary
deriving Repr, DecidableEq

/-- Body of `_analyze_news_sentiment` lines 196-225: counts and score total
over the first 10 items, but the average divides by the FULL feed length,
and the overall label uses thresholds ±0.1. -/
def sentimentSummaryOf (feed : List NewsItem) : SentimentSummary :=
  let top := feed.take 10
  let positive_count := (top.filter (fun n => n.overall_sentiment_label = "positive")).length
  let negative_count := (top.filter (fun n => n.overall_sentiment_label = "negative")).length
  let neutral_count :=
    (top.filter (fun n =>
      n.overall_sentiment_label ≠ "positive" ∧ n.overall_sentiment_label ≠ "negative")).length
  let total_score := (top.map (fun n => n.overall_sentiment_score)).sum
  let avg_sentiment_score := if feed.isEmpty then 0 else total_score / (feed.length : ℚ)
  { positive := positive_count
    negative := negative_count
    neutral := neutral_count
    average_score := avg_sentiment_score
    overall_sentiment :=
      if 0.1 < avg_sentiment_score then "positive"
      else if avg_sentiment_score < -0.1 then "negative"
      else "neutral" }

/-- `state["portfolio_context"]` on success (`portfolio_analysis` stage).
For the no-position branch only `has_position := false` matters; the numeric
fields are 0 there. -/
structure PortfolioContext where
  has_position : Bool
  position_size : ℚ
  avg_cost : ℚ
  current_price : ℚ
  unrealized_pnl : ℚ
  pnl_percentage : ℚ
  position_percentage : ℚ
deriving Repr, DecidableEq

/-- `state["analysis_result"]` on success: recommendation, confidence and
the `detailed_scores` / `key_metrics` the code stores. -/
structure AnalysisResultR where
  recommendation : String
  confidence_score : ℚ
  tech_score : ℚ
  sentiment_score : ℚ
  portfolio_score : ℚ
  total_score : ℚ
  trend : String
  sentiment : String
  has_position : Bool
deriving Repr, DecidableEq

/-- The pipeline's shared `AnalysisState` (TypedDict). `portfolio_context`
is not part of the initial state; `Slot.unset` models the absent key. -/
structure AnalysisState where
  symbol : String
  messages : List String
  stock_data : Slot StockData
  technical_data : Slot TechAnalysis
  news_data : Slot NewsData
  portfolio_context : Slot PortfolioContext
  analysis_result : Slot AnalysisResultR
  recommendation : String
  confidence_score : ℚ
  portfolio : Option Portfolio
deriving Repr, DecidableEq

/-- Stage `data_collection` (`_collect_stock_data`): on success store the
fetched data and append a success message; on any exception store
`{"error": msg}` and append a failure message; always return the state. -/
def collect_stock_data (fetch : Except String StockData) (s : AnalysisState) : AnalysisState :=
  match fetch with
  | .ok d =>
      { s with stock_data := .ok d
               messages := s.messages ++ ["成功收集 " ++ s.symbol ++ " 的基础数据"] }
  | .error e =>
      { s with stock_data := .error e
               messages := s.messages ++ ["数据收集失败: " ++ e] }

/-- Stage `technical_analysis` (`_perform_technical_analysis`). -/
def perform_technical_analysis (fetch : Except String TechFetch) (s : AnalysisState) : AnalysisState :=
  match fetch with
  | .ok f =>
      { s with technical_data := .ok (techAnalysisOf f)
               messages := s.messages ++ ["技术分析完成: " ++ s.symbol] }
  | .error e =>
      { s with technical_data := .error e
               messages := s.messages ++ ["技术分析失败: " ++ e] }

/-- Stage `news_sentiment_analysis` (`_analyze_news_sentiment`). -/
def analyze_news_sentiment (fetch : Except String (List NewsItem)) (s : AnalysisState) : AnalysisState :=
  match fetch with
  | .ok feed =>
      { s with news_data := .ok { news_items := feed.take 10
                                  sentiment_summary := sentimentSummaryOf feed }
               messages := s.messages ++ ["新闻情感分析完成: " ++ s.symbol] }
  | .error e =>
      { s with news_data := .error e
               messages := s.messages ++ ["新闻情感分析失败: " ++ e] }

/-- `portfolio.get("positions", {}).get(symbol, {})`, truthiness of the
resulting position dict encoded as `Option Position`. -/
def posLookup (p : Option Portfolio) (sym : String) : Option Position :=
  match p with
  | none => none
  | some q => (q.positions.find? (fun kv => kv.1 = sym)).map (fun kv => kv.2)

/-- `portfolio.get("total_value", 0)`. -/
def totalValueOf (p : Option Portfolio) : ℚ :=
  match p with
  | none => 0
  | some q => q.total_value

/-- `float(state["stock_data"].get("quote", {}).get("05. price", 0))`:
0 when stock data is absent or an error dict. -/
def quotePriceOf (sd : Slot StockData) : ℚ :=
  match sd with
  | .ok d => d.price
  | _ => 0

/-- Line 257: `pnl_percentage = (unrealized_pnl / (avg_cost * position_size)) * 100
if avg_cost > 0 else 0`. The division raises `ZeroDivisionError` when the
denominator `avg_cost * position_size` is 0 — the guard checks only
`avg_cost > 0`, so `position_size = 0` still divides by zero. -/
def pnl_percentage_calc (unrealized_pnl avg_cost position_size : ℚ) : Except String ℚ :=
  if 0 < avg_cost then
    if avg_cost * position_size = 0 then .error "float division by zero"
    else .ok (unrealized_pnl / (avg_cost * position_size) * 100)
  else .ok 0

/-- Body of `_analyze_portfolio_context` lines 246-272 (the part inside
`try`); a `ZeroDivisionError` from the P&L division surfaces as `.error`. -/
def portfolioBody (s : AnalysisState) : Except String PortfolioContext :=
  match posLookup s.portfolio s.symbol with
  | some pos =>
      let position_size := pos.shares
      let avg_cost := pos.avg_cost
      let current_price := quotePriceOf s.stock_data
      let unrealized_pnl := (current_price - avg_cost) * position_size
      let total_value := totalValueOf s.portfolio
      (pnl_percentage_calc unrealized_pnl avg_cost position_size).map (fun pnl =>
        { has_position := true
          position_size := position_size
          avg_cost := avg_cost
          current_price := current_price
          unrealized_pnl := unrealized_pnl
          pnl_percentage := pnl
          position_percentage :=
            if 0 < total_value then position_size * current_price / total_value * 100 else 0 })
  | none =>
      .ok { has_position := false, position_size := 0, avg_cost := 0, current_price := 0,
            unrealized_pnl := 0, pnl_percentage := 0, position_percentage := 0 }

/-- Stage `portfolio_analysis` (`_analyze_portfolio_context`) with its
`try/except` wrapper. -/
def analyze_portfolio_context (s : AnalysisState) : AnalysisState :=
  match portfolioBody s with
  | .ok pc =>
      { s with portfolio_context := .ok pc
               messages := s.messages ++ ["投资组合分析完成: " ++ s.symbol] }
  | .error e =>
      { s with portfolio_context := .error e
               messages := s.messages ++ ["投资组合分析失败: " ++ e] }

/-- Technical score of `_synthesize_recommendation` lines 302-305:
`+1` for a bullish trend, `-1` for bearish, else 0 (an error dict yields an
empty `analysis` sub-dict, hence no trend, hence 0). -/
def techScore (td : Slot TechAnalysis) : ℚ :=
  match td with
  | .ok t => if t.trend = "bullish" then 1 else if t.trend = "bearish" then -1 else 0
  | _ => 0

/-- Sentiment score, line 308: `sentiment.get("average_score", 0)`. -/
def sentimentScore (nd : Slot NewsData) : ℚ :=
  match nd with
  | .ok n => n.sentiment_summary.average_score
  | _ => 0

/-- Portfolio score, lines 311-316. -/
def portfolioScore (pc : Slot PortfolioContext) : ℚ :=
  match pc with
  | .ok p =>
      if p.has_position then
        if 10 < p.pnl_percentage then -0.5
        else if p.pnl_percentage < -10 then 0.5
        else 0
      else 0
  | _ => 0

/-- Total score, line 319. -/
def total_score_of (s : AnalysisState) : ℚ :=
  techScore s.technical_data + sentimentScore s.news_data + portfolioScore s.portfolio_context

/-- Classification, lines 322-330: recommendation and confidence from the
total score. -/
def classify (total : ℚ) : String × ℚ :=
  if 0.5 < total then ("BUY", min 0.9 |total|)
  else if total < -0.5 then ("SELL", min 0.9 |total|)
  else ("HOLD", 0.6)

/-- Body of `_synthesize_recommendation` (the part inside `try`). -/
def synthesize_core (s : AnalysisState) : AnalysisResultR :=
  let tech := techScore s.technical_data
  let senti := sentimentScore s.news_data
  let port := portfolioScore s.portfolio_context
  let total := tech + senti + port
  let rc := classify total
  { recommendation := rc.1
    confidence_score := rc.2
    tech_score := tech
    sentiment_score := senti
    portfolio_score := port
    total_score := total
    trend := match s.technical_data with | .ok t => t.trend | _ => "unknown"
    sentiment := match s.news_data with | .ok n => n.sentiment_summary.overall_sentiment | _ => "neutral"
    has_position := match s.portfolio_context with | .ok p => p.has_position | _ => false }

/-- Stage `synthesize_recommendation` with its `try/except` wrapper; `fail`
injects the exception the `except` branch would catch (`none` in a normal
run, where the body is total). -/
def synthesize_recommendation (fail : Option String) (s : AnalysisState) : AnalysisState :=
  match fail with
  | some e =>
      { s with analysis_result := .error e
               messages := s.messages ++ ["综合分析失败: " ++ e] }
  | none =>
      let r := synthesize_core s
      { s with analysis_result := .ok r
               recommendation := r.recommendation
               confidence_score := r.confidence_score
               messages := s.messages ++ ["综合分析完成: " ++ s.symbol ++ " - " ++ r.recommendation] }

/-- Initial `AnalysisState` built by `analyze_stock`: symbol and portfolio
set, one human message, every other field an empty container and
`portfolio_context` absent. -/
def initialState (symbol : String) (portfolio : Option Portfolio) : AnalysisState :=
  { symbol := symbol
    messages := ["请全面分析股票 " ++ symbol]
    stock_data := .unset
    technical_data := .unset
    news_data := .unset
    portfolio_context := .unset
    analysis_result := .unset
    recommendation := ""
    confidence_score := 0
    portfolio := portfolio }

/-- The compiled graph: `data_collection → technical_analysis →
news_sentiment_analysis → {portfolio_analysis if _should_analyze_portfolio}
→ synthesize_recommendation`. -/
def runPipeline (fetchStock : Except String StockData) (fetchTech : Except String TechFetch)
    (fetchNews : Except String (List NewsItem)) (synthFail : Option String)
    (s0 : AnalysisState) : AnalysisState :=
  let s1 := collect_stock_data fetchStock s0
  let s2 := perform_technical_analysis fetchTech s1
  let s3 := analyze_news_sentiment fetchNews s2
  let s4 := if should_analyze_portfolio s3.portfolio then analyze_portfolio_context s3 else s3
  synthesize_recommendation synthFail s4

/-! ## react_agent_service.py -/

/-- `text.lower()`, as the data of the string (ASCII case folding; the
keyword sets below are lower-case ASCII and Chinese, which Python's
`str.lower` also leaves unchanged). -/
def pyLower (s : String) : List Char :=
  s.data.map Char.toLower

/-- Python's `keyword in text_lower` substring test. -/
def containsSub (text_lower : List Char) (kw : String) : Bool :=
  decide (kw.data <:+: text_lower)

/-- `ResultParser._parse_recommendation` line 388. -/
def sell_keywords : List String := ["卖出", "sell", "建议卖出", "减仓", "止盈", "离场", "抛售"]

/-- `ResultParser._parse_recommendation` line 387. -/
def buy_keywords : List String := ["买入", "buy", "建议购买", "可以买", "适合买入", "建立仓位", "增持"]

/-- `ResultParser._parse_recommendation` line 389. -/
def hold_keywords : List String := ["持有", "hold", "观望", "等待", "维持", "保持"]

/-- `ResultParser._parse_recommendation`: keyword scan over the lower-cased
final answer with priority SELL > BUY > HOLD, default HOLD. -/
def parse_recommendation (text : String) : String :=
  let text_lower := pyLower text
  if sell_keywords.any (fun k => containsSub text_lower k) then "SELL"
  else if buy_keywords.any (fun k => containsSub text_lower k) then "BUY"
  else if hold_keywords.any (fun k => containsSub text_lower k) then "HOLD"
  else "HOLD"

/-- Python's `\s` on the ASCII range: space, tab, newline, carriage return,
vertical tab, form feed. -/
def isPySpace (c : Char) : Bool :=
  c = ' ' ∨ c = '\t' ∨ c = '\n' ∨ c = '\r' ∨ c = '\x0b' ∨ c = '\x0c'

/-- Numeric value of a digit run. -/
def digitsToNat (ds : List Char) : Nat :=
  ds.foldl (fun n c => 10 * n + (c.toNat - 48)) 0

/-- A matched decimal literal `\d+(?:\.\d+)?`, kept as digits so the
matching machinery stays free of rational arithmetic. -/
structure NumLit where
  int_part : Nat
  frac_part : Nat
  frac_len : Nat
deriving Repr, DecidableEq

/-- The rational value of a matched decimal literal. -/
def NumLit.toRat (n : NumLit) : ℚ :=
  (n.int_part : ℚ) + (n.frac_part : ℚ) / ((10 : ℚ) ^ n.frac_len)

/-- The regex group `\d+(?:\.\d+)?` matched at the head of the text:
its value and the remaining text. -/
def parseNum (cs : List Char) : Option (NumLit × List Char) :=
  let ds := cs.takeWhile Char.isDigit
  let rest := cs.drop ds.length
  if ds.isEmpty then none
  else
    match rest with
    | '.' :: rest2 =>
        let fs := rest2.takeWhile Char.isDigit
        if fs.isEmpty then some ({ int_part := digitsToNat ds, frac_part := 0, frac_len := 0 }, rest)
        else some ({ int_part := digitsToNat ds, frac_part := digitsToNat fs, frac_len := fs.length },
                   rest2.drop fs.length)
    | _ => some ({ int_part := digitsToNat ds, frac_part := 0, frac_len := 0 }, rest)

/-- Match a literal token at the head of the text, returning the rest. -/
def stripLead (pat : List Char) (cs : List Char) : Option (List Char) :=
  match pat, cs with
  | [], rest => some rest
  | _ :: _, [] => none
  | p :: ps, c :: cs' => if p = c then stripLead ps cs' else none

/-- The pattern `LABEL[：:]\s*(\d+(?:\.\d+)?)\s*%` matched at the head of the
text (patterns 1-2 of `_parse_confidence`), returning the captured number. -/
def matchLabelPat (label : List Char) (cs : List Char) : Option NumLit :=
  match stripLead label cs with
  | none => none
  | some r1 =>
    match r1 with
    | [] => none
    | c :: r2 =>
      if c = '：' ∨ c = ':' then
        match parseNum (r2.dropWhile isPySpace) with
        | none => none
        | some (v, r4) =>
          match r4.dropWhile isPySpace with
          | '%' :: _ => some v
          | _ => none
      else none

/-- The pattern `(\d+(?:\.\d+)?)\s*%\s*LABEL` matched at the head of the
text (patterns 3-4 of `_parse_confidence`). -/
def matchNumPat (label : List Char) (cs : List Char) : Option NumLit :=
  match parseNum cs with
  | none => none
  | some (v, r1) =>
    match r1.dropWhile isPySpace with
    | '%' :: r3 =>
      match stripLead label (r3.dropWhile isPySpace) with
      | some _ => some v
      | none => none
    | _ => none

/-- `re.search`: try the pattern at every start position, leftmost first. -/
def searchPat (m : List Char → Option NumLit) : List Char → Option NumLit
  | [] => m []
  | c :: cs =>
    match m (c :: cs) with
    | some v => some v
    | none => searchPat m cs

/-- The four `confidence_patterns` of `_parse_confidence`, tried in order on
the case-folded text; the first pattern with a match anywhere wins. -/
def confidenceSearch (tl : List Char) : Option NumLit :=
  match searchPat (matchLabelPat ("置信度".data)) tl with
  | some v => some v
  | none =>
  match searchPat (matchLabelPat ("confidence".data)) tl with
  | some v => some v
  | none =>
  match searchPat (matchNumPat ("置信度".data)) tl with
  | some v => some v
  | none => searchPat (matchNumPat ("confidence".data)) tl

/-- `_parse_confidence` line 425. -/
def strong_words : List String := ["强烈", "非常", "strongly", "highly"]

/-- `_parse_confidence` line 427. -/
def recommend_words : List String := ["建议", "recommend", "应该"]

/-- `_parse_confidence` line 429. -/
def hedge_words : List String := ["可能", "may", "might", "或许"]

/-- `ResultParser._parse_confidence`: percentage pattern first, normalized by
`min(confidence / 100.0, 1.0)`; otherwise intensity-keyword buckets;
otherwise the 0.70 default. -/
def parse_confidence (text : String) : ℚ :=
  let text_lower := pyLower text
  match confidenceSearch text_lower with
  | some confidence => min (confidence.toRat / 100) 1
  | none =>
    if strong_words.any (fun k => containsSub text_lower k) then 0.85
    else if recommend_words.any (fun k => containsSub text_lower k) then 0.75
    else if hedge_words.any (fun k => containsSub text_lower k) then 0.6
    else 0.7

/-- One per-ticker sentiment entry of a `NEWS_SENTIMENT` feed item. -/
structure TickerSentiment where
  ticker : String
  ticker_sentiment_score : ℚ
  ticker_sentiment_label : String
deriving Repr, DecidableEq

/-- One feed item as the `get_news` tool reads it. -/
structure FeedItem where
  ticker_sentiment : List TickerSentiment
deriving Repr, DecidableEq

/-- `get_news` lines 181-195: the per-item scores that are available — for
each of the first `limit` items, the score of the first `ticker_sentiment`
entry whose ticker matches the symbol, if any. -/
def get_news_scores (symbol : String) (limit : Nat) (feed : List FeedItem) : List ℚ :=
  (feed.take limit).filterMap (fun item =>
    (item.ticker_sentiment.find? (fun ts => ts.ticker.toUpper = symbol.toUpper)).map
      (fun ts => ts.ticker_sentiment_score))

/-- `get_news` line 203: `sum(sentiment_scores) / len(sentiment_scores) if
sentiment_scores else 0`. -/
def get_news_avg_sentiment (symbol : String) (limit : Nat) (feed : List FeedItem) : ℚ :=
  let sentiment_scores := get_news_scores symbol limit feed
  if sentiment_scores.isEmpty then 0
  else sentiment_scores.sum / (sentiment_scores.length : ℚ)

/-- `get_news` line 204: the aggregate label. -/
def get_news_sentiment_label (avg_sentiment : ℚ) : String :=
  if 0.15 < avg_sentiment then "正面"
  else if avg_sentiment < -0.15 then "负面"
  else "中性"

/-- Restatement of the spec's aggregation rule, for comparison with the two
implementations: aggregate sentiment = mean of the available per-item
scores (0 for none). -/
def spec_mean_of_scores (scores : List ℚ) : ℚ :=
  if scores = [] then 0 else scores.sum / (scores.length : ℚ)

/-- Restatement of the spec's labelling rule: positive if mean > 0.15,
negative if mean < −0.15, else neutral. -/
def spec_aggregate_label (mean : ℚ) : String :=
  if 0.15 < mean then "positive"
  else if mean < -0.15 then "negative"
  else "neutral"

/-- One tool invocation requested by an assistant turn. -/
structure ToolCall where
  name : String
  args : String
  id : String
deriving Repr, DecidableEq

/-- One assistant turn of the reasoning service: free text plus the list of
requested tool invocations. -/
structure AssistantTurn where
  content : String
  tool_calls : List ToolCall
deriving Repr, DecidableEq

/-- A transcript turn (`HumanMessage` / `AIMessage` / `ToolMessage`). -/
inductive Msg where
  | human : String → Msg
  | assistant : AssistantTurn → Msg
  | tool : String → String → Msg
deriving Repr, DecidableEq

/-- Executing the tool calls of one assistant turn, in request order, each
producing a `ToolMessage` correlated by call id (`analyze_stock` lines
598-612; tool resolution and `_safe_call_tool` are folded into `execTool`,
which never raises). -/
def runCalls (execTool : ToolCall → String) (calls : List ToolCall) : List Msg :=
  calls.map (fun c => Msg.tool (execTool c) c.id)

/-- One iteration's transcript growth when the assistant requested tools:
append the assistant turn, then the tool results. -/
def loopStep (invoke : List Msg → AssistantTurn) (execTool : ToolCall → String)
    (msgs : List Msg) : List Msg :=
  let ai := invoke msgs
  msgs ++ [Msg.assistant ai] ++ runCalls execTool ai.tool_calls

/-- The `for _ in range(6)` tool-calling loop of `analyze_stock` lines
591-614, with `fuel` iterations remaining; returns the final answer and the
number of assistant turns consumed.  A turn without tool calls breaks with
that turn's content; when the fuel runs out the `for`'s `else` takes the
last turn's content. -/
def agentLoopAux (invoke : List Msg → AssistantTurn) (execTool : ToolCall → String) :
    Nat → List Msg → String × Nat
  | 0, _ => ("", 0)
  | fuel + 1, msgs =>
    let ai := invoke msgs
    if ai.tool_calls.isEmpty then (ai.content, 1)
    else
      match fuel with
      | 0 => (ai.content, 1)
      | fuel' + 1 =>
        let r := agentLoopAux invoke execTool (fuel' + 1) (loopStep invoke execTool msgs)
        (r.1, r.2 + 1)

/-- The loop as `analyze_stock` runs it: at most 6 iterations. -/
def analyze_stock_loop (invoke : List Msg → AssistantTurn) (execTool : ToolCall → String)
    (msgs : List Msg) : String × Nat :=
  agentLoopAux invoke execTool 6 msgs

/-- `StockAnalysisAgent._update_history` lines 706-713:
`self.histories[symbol] = (prev + new_messages)[-50:]`. -/
def update_history {α : Type} (prev new_messages : List α) : List α :=
  let merged := prev ++ new_messages
  merged.drop (merged.length - 50)

/-- The last `n` elements of a list (`l[-n:]`). -/
def lastN {α : Type} (n : Nat) (l : List α) : List α :=
  l.drop (l.length - n)

/-! ## Helper lemmas -/

/-- Taking the last `n` of a list that already is a last-`n` slice, after
appending, is the same as slicing the whole appended list. -/
lemma rtake_append_rtake {α : Type} (n : Nat) (xs ys : List α) :
    (xs.rtake n ++ ys).rtake n = (xs ++ ys).rtake n := by
  rw [List.rtake_eq_reverse_take_reverse (xs.rtake n ++ ys),
      List.rtake_eq_reverse_take_reverse (xs ++ ys),
      List.rtake_eq_reverse_take_reverse xs]
  rw [List.reverse_append, List.reverse_append, List.reverse_reverse]
  rw [List.take_append_eq_append_take, List.take_append_eq_append_take, List.take_take]
  have hmin : min (n - ys.reverse.length) n = n - ys.reverse.length :=
    Nat.min_eq_left (Nat.sub_le n ys.reverse.length)
  rw [hmin]

/-- `update_history` is exactly the last-50 slice of `old ++ new`. -/
lemma update_history_eq_rtake {α : Type} (prev new_messages : List α) :
    update_history prev new_messages = (prev ++ new_messages).rtake 50 := rfl

/-- Folding single-turn appends through `update_history` keeps exactly the
last 50 turns of everything appended so far. -/
lemma foldl_update_history {α : Type} (ts : List α) :
    ∀ xs : List α,
      List.foldl (fun h t => update_history h [t]) (xs.rtake 50) ts = (xs ++ ts).rtake 50 := by
  induction ts with
  | nil => intro xs; simp
  | cons t ts ih =>
      intro xs
      have step : update_history (xs.rtake 50) [t] = (xs ++ [t]).rtake 50 := by
        rw [update_history_eq_rtake, rtake_append_rtake]
      rw [List.foldl_cons, step, ih (xs ++ [t]), List.append_assoc]
      rfl

/-- C7: for every symbol's history, `_update_history` stores exactly
`old ++ new` truncated to the most recent 50 turns, in order (the stored
sequence is a suffix of `old ++ new`, equal to it when it has ≤ 50 turns,
of length `min 50 (old ++ new).length`); and appending turns one at a time
starting from the empty history leaves exactly the last 50 of all turns
appended, oldest first. -/
theorem C7_history_cap {α : Type} (prev new_messages ts : List α) :
    update_history prev new_messages = (prev ++ new_messages).rtake 50 ∧
    update_history prev new_messages <:+ prev ++ new_messages ∧
    ((prev ++ new_messages).length ≤ 50 →
        update_history prev new_messages = prev ++ new_messages) ∧
    (update_history prev new_messages).length = min 50 (prev ++ new_messages).length ∧
    List.foldl (fun h t => update_history h [t]) [] ts = ts.rtake 50 := by
  refine ⟨rfl, List.drop_suffix _ _, ?_, ?_, ?_⟩
  · intro hle
    have h0 : (prev ++ new_messages).length - 50 = 0 := Nat.sub_eq_zero_of_le hle
    rw [update_history_eq_rtake, List.rtake, h0, List.drop_zero]
  · rw [update_history_eq_rtake, List.rtake, List.length_drop]
    omega
  · have h0 : (([] : List α).rtake 50) = [] := List.rtake_nil 50
    have := foldl_update_history ts ([] : List α)
    rw [h0] at this
    rw [this, List.nil_append]

/-- C7 witness: a short history is kept whole, and appending the 60 turns
`0,...,59` one at a time to an empty history leaves exactly the most recent
50 turns `10,...,59`, oldest first. -/
theorem C7_history_cap_witness :
    update_history (List.range 30) (List.range 10) = List.range 30 ++ List.range 10 ∧
    List.foldl (fun h t => update_history h [t]) [] (List.range 60)
      = (List.range 60).drop 10 := by
  refine ⟨(C7_history_cap (List.range 30) (List.range 10) []).2.2.1 (by decide), ?_⟩
  have h := (C7_history_cap ([] : List Nat) [] (List.range 60)).2.2.2.2
  rw [h]
  decide

/-- C3: classification of the total score in `_synthesize_recommendation`:
total > 0.5 gives BUY with confidence `min 0.9 |total|`, total < −0.5 gives
SELL with the same confidence, everything in `[−0.5, 0.5]` (the boundary
values included) gives HOLD with confidence 0.6; and the stage's stored
recommendation/confidence pair is exactly `classify` of the total score. -/
theorem C3_total_score_classification (t : ℚ) :
    ((0.5 : ℚ) < t → classify t = ("BUY", min 0.9 |t|)) ∧
    (t < -(0.5 : ℚ) → classify t = ("SELL", min 0.9 |t|)) ∧
    (-(0.5 : ℚ) ≤ t → t ≤ (0.5 : ℚ) → classify t = ("HOLD", 0.6)) ∧
    (∀ s : AnalysisState,
      ((synthesize_recommendation none s).recommendation,
       (synthesize_recommendation none s).confidence_score) = classify (total_score_of s)) := by
  refine ⟨fun h => ?_, fun h => ?_, fun h1 h2 => ?_, fun s => rfl⟩
  · rw [classify, if_pos h]
  · have hn : ¬ (0.5 : ℚ) < t := by linarith
    rw [classify, if_neg hn, if_pos h]
  · have hn : ¬ (0.5 : ℚ) < t := not_lt.mpr h2
    have hn2 : ¬ t < -(0.5 : ℚ) := not_lt.mpr h1
    rw [classify, if_neg hn, if_neg hn2]

/-- C3 witness: +0.5 and −0.5 classify as HOLD at confidence 0.6, and +0.51
classifies as BUY with confidence 0.51. -/
theorem C3_total_score_classification_witness :
    classify (0.5 : ℚ) = ("HOLD", 0.6) ∧
    classify (-(0.5 : ℚ)) = ("HOLD", 0.6) ∧
    classify (0.51 : ℚ) = ("BUY", 0.51) := by
  refine ⟨(C3_total_score_classification 0.5).2.2.1 (by norm_num) le_rfl,
          (C3_total_score_classification (-(0.5 : ℚ))).2.2.1 le_rfl (by norm_num),
          ?_⟩
  have h := (C3_total_score_classification 0.51).1 (by norm_num)
  rw [h, abs_of_pos (by norm_num : (0 : ℚ) < 0.51),
      min_eq_right (by norm_num : (0.51 : ℚ) ≤ 0.9)]

/-- C10: when the RSI series is absent or empty, `_perform_technical_analysis`
parses no RSI (`latest_rsi = None`) yet still labels the trend `"bearish"`
(never neutral/unknown), and `_synthesize_recommendation` therefore scores
the technical dimension −1 even though no technical data was available. -/
theorem C10_empty_rsi_scores_bearish (sma : List (String × ℚ)) (s : AnalysisState) :
    (perform_technical_analysis (Except.ok { sma_series := sma, rsi_series := [] }) s).technical_data
      = Slot.ok (techAnalysisOf { sma_series := sma, rsi_series := [] }) ∧
    (techAnalysisOf { sma_series := sma, rsi_series := [] }).rsi = none ∧
    (techAnalysisOf { sma_series := sma, rsi_series := [] }).trend = "bearish" ∧
    techScore (perform_technical_analysis
        (Except.ok { sma_series := sma, rsi_series := [] }) s).technical_data = -1 ∧
    (synthesize_core (perform_technical_analysis
        (Except.ok { sma_series := sma, rsi_series := [] }) s)).tech_score = -1 := by
  refine ⟨rfl, rfl, rfl, ?_, ?_⟩
  · rw [perform_technical_analysis]
    rw [techScore]
    simp [techAnalysisOf, latestValue, firstSortedKey, trendOf]
  · rw [synthesize_core, perform_technical_analysis]
    simp only [techScore, techAnalysisOf, latestValue, firstSortedKey]
    simp [trendOf]

/-- C4: `_parse_recommendation` scans the lower-cased answer with priority
SELL > BUY > HOLD and default HOLD; in particular any text containing both a
sell-phrase and a buy-phrase parses as SELL, never BUY. -/
theorem C4_recommendation_priority (text : String) :
    (sell_keywords.any (fun k => containsSub (pyLower text) k) = true →
        parse_recommendation text = "SELL") ∧
    (sell_keywords.any (fun k => containsSub (pyLower text) k) = false →
      buy_keywords.any (fun k => containsSub (pyLower text) k) = true →
        parse_recommendation text = "BUY") ∧
    (sell_keywords.any (fun k => containsSub (pyLower text) k) = false →
      buy_keywords.any (fun k => containsSub (pyLower text) k) = false →
      hold_keywords.any (fun k => containsSub (pyLower text) k) = true →
        parse_recommendation text = "HOLD") ∧
    (sell_keywords.any (fun k => containsSub (pyLower text) k) = false →
      buy_keywords.any (fun k => containsSub (pyLower text) k) = false →
      hold_keywords.any (fun k => containsSub (pyLower text) k) = false →
        parse_recommendation text = "HOLD") ∧
    (sell_keywords.any (fun k => containsSub (pyLower text) k) = true →
      buy_keywords.any (fun k => containsSub (pyLower text) k) = true →
        parse_recommendation text = "SELL" ∧ parse_recommendation text ≠ "BUY") := by
  refine ⟨fun hs => ?_, fun hs hb => ?_, fun hs hb hh => ?_, fun hs hb hh => ?_, fun hs hb => ?_⟩
  · simp [parse_recommendation, hs]
  · simp [parse_recommendation, hs, hb]
  · simp [parse_recommendation, hs, hb, hh]
  · simp [parse_recommendation, hs, hb, hh]
  · constructor
    · simp [parse_recommendation, hs]
    · simp [parse_recommendation, hs]

/-- C4 witness: a text containing both "sell" and "buy" parses as SELL and
not BUY; texts with only buy-, only hold-, and no keywords parse as BUY,
HOLD and HOLD. -/
theorem C4_recommendation_priority_witness :
    parse_recommendation "You could SELL now or BUY later" = "SELL" ∧
    parse_recommendation "You could SELL now or BUY later" ≠ "BUY" ∧
    parse_recommendation "just BUY it" = "BUY" ∧
    parse_recommendation "观望" = "HOLD" ∧
    parse_recommendation "no signal at all" = "HOLD" := by
  have h1 := (C4_recommendation_priority "You could SELL now or BUY later").2.2.2.2
      (by decide) (by decide)
  refine ⟨h1.1, h1.2, ?_, ?_, ?_⟩
  · exact (C4_recommendation_priority "just BUY it").2.1 (by decide) (by decide)
  · exact (C4_recommendation_priority "观望").2.2.1 (by decide) (by decide) (by decide)
  · exact (C4_recommendation_priority "no signal at all").2.2.2.1 (by decide) (by decide) (by decide)

/-- The first three stages touch neither the `portfolio` input nor the
`portfolio_context` field. -/
lemma stages13_preserve (fs : Except String StockData) (ft : Except String TechFetch)
    (fn : Except String (List NewsItem)) (s0 : AnalysisState) :
    (analyze_news_sentiment fn (perform_technical_analysis ft (collect_stock_data fs s0))).portfolio
        = s0.portfolio ∧
    (analyze_news_sentiment fn (perform_technical_analysis ft (collect_stock_data fs s0))).portfolio_context
        = s0.portfolio_context := by
  cases fs <;> cases ft <;> cases fn <;> exact ⟨rfl, rfl⟩

/-- `synthesize_recommendation` never touches `portfolio_context`. -/
lemma synthesize_preserves_pc (f : Option String) (s : AnalysisState) :
    (synthesize_recommendation f s).portfolio_context = s.portfolio_context := by
  cases f <;> rfl

/-- C1 (amended): the conditional edge after `news_sentiment_analysis`
routes to `portfolio_analysis` iff a non-null Portfolio whose top-level dict
is non-empty was supplied — the check is `len(portfolio) > 0`, not the
number of positions.  For a null Portfolio, or a Portfolio that is an empty
dict, `portfolio_analysis` never executes and `portfolio_context` remains
unset; a Portfolio with an empty `positions` mapping but a non-empty dict
does NOT skip the stage (see the counterexample). -/
theorem C1_portfolio_routing (p : Option Portfolio) (sym : String)
    (fs : Except String StockData) (ft : Except String TechFetch)
    (fn : Except String (List NewsItem)) (sf : Option String) :
    (should_analyze_portfolio p = true ↔ ∃ q, p = some q ∧ q.keys ≠ []) ∧
    (should_analyze_portfolio p = false →
        (runPipeline fs ft fn sf (initialState sym p)).portfolio_context = Slot.unset) ∧
    (p = none →
        (runPipeline fs ft fn sf (initialState sym p)).portfolio_context = Slot.unset) ∧
    (∀ q, p = some q → q.keys = [] →
        (runPipeline fs ft fn sf (initialState sym p)).portfolio_context = Slot.unset) := by
  have hroute : should_analyze_portfolio p = false →
      (runPipeline fs ft fn sf (initialState sym p)).portfolio_context = Slot.unset := by
    intro h
    have hp := stages13_preserve fs ft fn (initialState sym p)
    have hcond : should_analyze_portfolio
        ((analyze_news_sentiment fn (perform_technical_analysis ft
          (collect_stock_data fs (initialState sym p)))).portfolio) = false := by
      rw [hp.1]; exact h
    simp only [runPipeline]
    rw [synthesize_preserves_pc, hcond]
    simp only [Bool.false_eq_true, if_false]
    exact hp.2
  refine ⟨?_, hroute, fun hnone => ?_, fun q hq hkeys => ?_⟩
  · cases p with
    | none => simp [should_analyze_portfolio]
    | some q => simp [should_analyze_portfolio, List.length_pos]
  · exact hroute (by rw [hnone]; rfl)
  · refine hroute ?_
    rw [hq]
    simp [should_analyze_portfolio, hkeys]

/-- C1 counterexample: a non-null Portfolio whose `positions` mapping is
empty but whose dict has a key (`{"positions": {}}`) — the claim says the
routing predicate is false and `portfolio_analysis` never executes, but the
code routes to the stage and sets `portfolio_context`. -/
theorem C1_routing_counterexample :
    should_analyze_portfolio
        (some { keys := ["positions"], positions := [], total_value := 0 }) = true ∧
    Portfolio.positions { keys := ["positions"], positions := [], total_value := 0 } = [] ∧
    (runPipeline (Except.error "e") (Except.error "e") (Except.error "e") none
        (initialState "AAPL"
          (some { keys := ["positions"], positions := [], total_value := 0 }))).portfolio_context
      ≠ Slot.unset := by
  refine ⟨by decide, rfl, ?_⟩
  simp only [runPipeline, collect_stock_data, perform_technical_analysis,
    analyze_news_sentiment, synthesize_preserves_pc]
  simp [should_analyze_portfolio, analyze_portfolio_context, portfolioBody, posLookup,
    initialState, totalValueOf, quotePriceOf]

/-- The value of any matched percentage literal is non-negative. -/
lemma NumLit.toRat_nonneg (n : NumLit) : 0 ≤ n.toRat := by
  unfold NumLit.toRat
  positivity

/-- C5: `_parse_confidence` always returns a value in [0,1]; a percentage
matched next to a confidence label yields `min (p/100) 1` (so 250% clamps
to 1.0); with no percentage match the intensity buckets give 0.85 / 0.75 /
0.60 and the default is 0.70. -/
theorem C5_confidence_extraction (text : String) :
    (0 ≤ parse_confidence text ∧ parse_confidence text ≤ 1) ∧
    (∀ p, confidenceSearch (pyLower text) = some p →
        parse_confidence text = min (p.toRat / 100) 1) ∧
    (confidenceSearch (pyLower text) = none →
        parse_confidence text =
          (if strong_words.any (fun k => containsSub (pyLower text) k) then 0.85
           else if recommend_words.any (fun k => containsSub (pyLower text) k) then 0.75
           else if hedge_words.any (fun k => containsSub (pyLower text) k) then 0.6
           else 0.7)) := by
  refine ⟨?_, fun p hp => ?_, fun hn => ?_⟩
  · simp only [parse_confidence]
    cases h : confidenceSearch (pyLower text) with
    | some p =>
        refine ⟨le_min (div_nonneg (NumLit.toRat_nonneg p) (by norm_num)) zero_le_one,
                min_le_right _ _⟩
    | none => split_ifs <;> norm_num
  · simp only [parse_confidence, hp]
  · simp only [parse_confidence, hn]

/-- C5 witness: a stated confidence of 250% clamps to 1.0, and a text with
neither percentage nor intensity keywords defaults to 0.70. -/
theorem C5_confidence_extraction_witness :
    parse_confidence "Confidence: 250%" = 1 ∧ parse_confidence "hello" = 0.7 := by
  have h1 := (C5_confidence_extraction "Confidence: 250%").2.1
      { int_part := 250, frac_part := 0, frac_len := 0 } (by decide)
  have h2 := (C5_confidence_extraction "hello").2.2 (by decide)
  constructor
  · rw [h1]
    norm_num [NumLit.toRat, min_def]
  · have hs : strong_words.any (fun k => containsSub (pyLower "hello") k) = false := by decide
    have hr : recommend_words.any (fun k => containsSub (pyLower "hello") k) = false := by decide
    have hh : hedge_words.any (fun k => containsSub (pyLower "hello") k) = false := by decide
    rw [h2, hs, hr, hh]
    simp

/-- C2 (amended): the `get_news` tool aggregates exactly as the claim says
(mean of the available per-item scores; labels at thresholds ±0.15).  The
pipeline's `_analyze_news_sentiment`, however, divides the sum of the first
10 items' scores by the FULL feed length — which is the mean of the
per-item scores only when the feed has at most 10 items — and labels at
thresholds ±0.1, not ±0.15. -/
theorem C2_sentiment_aggregation (symbol : String) (limit : Nat)
    (feed : List FeedItem) (pfeed : List NewsItem) :
    get_news_avg_sentiment symbol limit feed
        = spec_mean_of_scores (get_news_scores symbol limit feed) ∧
    (∀ avg : ℚ, ((0.15 : ℚ) < avg → get_news_sentiment_label avg = "正面") ∧
        (avg < -(0.15 : ℚ) → get_news_sentiment_label avg = "负面") ∧
        (-(0.15 : ℚ) ≤ avg → avg ≤ (0.15 : ℚ) → get_news_sentiment_label avg = "中性")) ∧
    ((sentimentSummaryOf pfeed).average_score
        = if pfeed.isEmpty then 0
          else ((pfeed.take 10).map (fun n => n.overall_sentiment_score)).sum
                / (pfeed.length : ℚ)) ∧
    (pfeed ≠ [] → pfeed.length ≤ 10 →
        (sentimentSummaryOf pfeed).average_score
          = spec_mean_of_scores (pfeed.map (fun n => n.overall_sentiment_score))) ∧
    ((sentimentSummaryOf pfeed).overall_sentiment = "positive"
        ↔ (0.1 : ℚ) < (sentimentSummaryOf pfeed).average_score) ∧
    ((sentimentSummaryOf pfeed).overall_sentiment = "negative"
        ↔ (sentimentSummaryOf pfeed).average_score < -(0.1 : ℚ)) := by
  have hlabel : (sentimentSummaryOf pfeed).overall_sentiment
      = if (0.1 : ℚ) < (sentimentSummaryOf pfeed).average_score then "positive"
        else if (sentimentSummaryOf pfeed).average_score < -(0.1 : ℚ) then "negative"
        else "neutral" := rfl
  refine ⟨?_, fun avg => ⟨fun h => ?_, fun h => ?_, fun h1 h2 => ?_⟩, rfl, fun hne h10 => ?_, ?_, ?_⟩
  · unfold get_news_avg_sentiment spec_mean_of_scores
    by_cases h : get_news_scores symbol limit feed = []
    · simp [h]
    · simp [h, List.isEmpty_iff]
  · rw [get_news_sentiment_label, if_pos h]
  · have hn : ¬ (0.15 : ℚ) < avg := by linarith
    rw [get_news_sentiment_label, if_neg hn, if_pos h]
  · have hn : ¬ (0.15 : ℚ) < avg := not_lt.mpr h2
    have hn2 : ¬ avg < -(0.15 : ℚ) := not_lt.mpr h1
    rw [get_news_sentiment_label, if_neg hn, if_neg hn2]
  · have htake : pfeed.take 10 = pfeed := List.take_of_length_le h10
    have hmap : pfeed.map (fun n => n.overall_sentiment_score) ≠ [] := by
      simp [List.map_eq_nil_iff, hne]
    have hempty : pfeed.isEmpty = false := by
      rw [List.isEmpty_eq_false]; exact hne
    show (if pfeed.isEmpty then 0
          else ((pfeed.take 10).map (fun n => n.overall_sentiment_score)).sum
                / (pfeed.length : ℚ)) = _
    rw [htake, hempty, spec_mean_of_scores, if_neg hmap, List.length_map]
    simp
  · rw [hlabel]
    split_ifs with h1 h2
    · simp [h1]
    · simp [h1]
    · simp [h1]
  · rw [hlabel]
    split_ifs with h1 h2
    · simp
      linarith
    · simp [h2]
    · simp [h2]

/-- C2 counterexample: a one-item feed with score 0.12.  The claim's rule
(mean 0.12, thresholds ±0.15) labels it neutral, but the pipeline stage
labels it "positive" because its threshold is 0.1. -/
theorem C2_claim_counterexample :
    (sentimentSummaryOf [⟨"neutral", 0.12⟩]).average_score = 0.12 ∧
    spec_aggregate_label (spec_mean_of_scores [0.12]) = "neutral" ∧
    (sentimentSummaryOf [⟨"neutral", 0.12⟩]).overall_sentiment = "positive" ∧
    (sentimentSummaryOf [⟨"neutral", 0.12⟩]).overall_sentiment
      ≠ spec_aggregate_label ((sentimentSummaryOf [⟨"neutral", 0.12⟩]).average_score) := by
  have havg : (sentimentSummaryOf [⟨"neutral", 0.12⟩]).average_score = 0.12 := by
    simp [sentimentSummaryOf]
  have hspec : spec_mean_of_scores [(0.12 : ℚ)] = 0.12 := by
    simp [spec_mean_of_scores]
  have hlab : (sentimentSummaryOf [⟨"neutral", 0.12⟩]).overall_sentiment = "positive" := by
    simp only [sentimentSummaryOf]
    norm_num
  refine ⟨havg, ?_, hlab, ?_⟩
  · rw [hspec, spec_aggregate_label]
    norm_num
  · rw [hlab, havg, spec_aggregate_label]
    norm_num
    decide

/-- C8 (amended): for a held position the P&L% is the claimed formula when
`avg_cost > 0` and the shares are non-zero, and 0 when `avg_cost` is 0; but
the guard checks only `avg_cost > 0`, so a held position with 0 shares makes
the code divide by zero (a `ZeroDivisionError`, caught by the stage wrapper,
which then contributes a portfolio score of 0).  The score mapping itself is
as claimed: −0.5 above +10%, +0.5 below −10%, else 0, and 0 whenever no
position is held or no portfolio context exists. -/
theorem C8_portfolio_scoring (price cost shares : ℚ) (pc : PortfolioContext) (e : String) :
    (0 < cost → shares ≠ 0 →
        pnl_percentage_calc ((price - cost) * shares) cost shares
          = Except.ok ((price - cost) * shares / (cost * shares) * 100)) ∧
    (cost = 0 → pnl_percentage_calc ((price - cost) * shares) cost shares = Except.ok 0) ∧
    (0 < cost → shares = 0 →
        pnl_percentage_calc ((price - cost) * shares) cost shares
          = Except.error "float division by zero") ∧
    (pc.has_position = true → 10 < pc.pnl_percentage → portfolioScore (Slot.ok pc) = -0.5) ∧
    (pc.has_position = true → pc.pnl_percentage < -10 → portfolioScore (Slot.ok pc) = 0.5) ∧
    (pc.has_position = true → -10 ≤ pc.pnl_percentage → pc.pnl_percentage ≤ 10 →
        portfolioScore (Slot.ok pc) = 0) ∧
    (pc.has_position = false → portfolioScore (Slot.ok pc) = 0) ∧
    portfolioScore Slot.unset = 0 ∧
    portfolioScore (Slot.error e) = 0 := by
  refine ⟨fun hc hs => ?_, fun hc => ?_, fun hc hs => ?_,
          fun hp h => ?_, fun hp h => ?_, fun hp h1 h2 => ?_, fun hp => ?_, rfl, rfl⟩
  · rw [pnl_percentage_calc, if_pos hc, if_neg (mul_ne_zero (ne_of_gt hc) hs)]
  · rw [pnl_percentage_calc, if_neg (by rw [hc]; exact lt_irrefl 0)]
  · rw [pnl_percentage_calc, if_pos hc, if_pos (by rw [hs, mul_zero])]
  · rw [portfolioScore, hp]
    simp [h]
  · have hn : ¬ 10 < pc.pnl_percentage := by linarith
    rw [portfolioScore, hp]
    simp [hn, h]
  · have hn : ¬ 10 < pc.pnl_percentage := not_lt.mpr h2
    have hn2 : ¬ pc.pnl_percentage < -10 := not_lt.mpr h1
    rw [portfolioScore, hp]
    simp [hn, hn2]
  · rw [portfolioScore, hp]
    simp

/-- C8 witness: a position of 10 shares at cost 80 and price 100 has
P&L% = 25 and contributes a trim signal of −0.5. -/
theorem C8_portfolio_scoring_witness :
    pnl_percentage_calc ((100 - 80) * 10) 80 10
      = Except.ok ((100 - 80) * 10 / (80 * 10) * 100) ∧
    (100 - 80 : ℚ) * 10 / (80 * 10) * 100 = 25 ∧
    portfolioScore (Slot.ok ⟨true, 10, 80, 100, 200, 25, 0⟩) = -0.5 := by
  refine ⟨(C8_portfolio_scoring 100 80 10 ⟨true, 10, 80, 100, 200, 25, 0⟩ "e").1
      (by norm_num) (by norm_num), by norm_num, ?_⟩
  exact (C8_portfolio_scoring 100 80 10 ⟨true, 10, 80, 100, 200, 25, 0⟩ "e").2.2.2.1
      rfl (by norm_num)

/-- C8 counterexample: a held position with `shares = 0` and
`avg_cost = 80 > 0`.  The claim says the division is guarded and never
performed with a zero denominator, but the code divides `0.0 / 0.0` and
raises; the P&L% is not a value at this input, for the bare calculation and
for the whole portfolio-analysis stage body alike. -/
theorem C8_zero_shares_counterexample :
    pnl_percentage_calc ((100 - 80) * 0) 80 0 = Except.error "float division by zero" ∧
    (¬ ∃ q : ℚ, pnl_percentage_calc ((100 - 80) * 0) 80 0 = Except.ok q) ∧
    portfolioBody ⟨"AAPL", [], Slot.ok ⟨100⟩, Slot.unset, Slot.unset, Slot.unset,
        Slot.unset, "", 0, some ⟨["positions", "total_value"], [("AAPL", ⟨0, 80⟩)], 1000⟩⟩
      = Except.error "float division by zero" := by
  have h : pnl_percentage_calc ((100 - 80) * 0) 80 0
      = Except.error "float division by zero" := by
    rw [pnl_percentage_calc, if_pos (by norm_num : (0 : ℚ) < 80), if_pos (by norm_num)]
  refine ⟨h, ?_, ?_⟩
  · rw [h]
    simp
  · simp only [portfolioBody, posLookup, quotePriceOf, totalValueOf]
    norm_num [pnl_percentage_calc]
    rfl

/-- C9: each stage's `try/except` wrapper turns an internal failure into an
`{"error": msg}` value in the stage's own state field plus one explanatory
message, returning the state normally — and with every fetch failing the
graph still runs to the end: `synthesize_recommendation` executes and
populates `analysis_result`, and each of the four traversed stages appended
exactly one message. -/
theorem C9_stage_error_containment (e : String) (s : AnalysisState) :
    collect_stock_data (Except.error e) s
      = { s with stock_data := Slot.error e,
                 messages := s.messages ++ ["数据收集失败: " ++ e] } ∧
    perform_technical_analysis (Except.error e) s
      = { s with technical_data := Slot.error e,
                 messages := s.messages ++ ["技术分析失败: " ++ e] } ∧
    analyze_news_sentiment (Except.error e) s
      = { s with news_data := Slot.error e,
                 messages := s.messages ++ ["新闻情感分析失败: " ++ e] } ∧
    (portfolioBody s = Except.error e →
        analyze_portfolio_context s
          = { s with portfolio_context := Slot.error e,
                     messages := s.messages ++ ["投资组合分析失败: " ++ e] }) ∧
    synthesize_recommendation (some e) s
      = { s with analysis_result := Slot.error e,
                 messages := s.messages ++ ["综合分析失败: " ++ e] } ∧
    (∃ r, (runPipeline (Except.error e) (Except.error e) (Except.error e) none s).analysis_result
        = Slot.ok r) ∧
    (should_analyze_portfolio s.portfolio = false →
        (runPipeline (Except.error e) (Except.error e) (Except.error e) none s).messages.length
          = s.messages.length + 4) := by
  refine ⟨rfl, rfl, rfl, fun h => ?_, rfl, ?_, fun h => ?_⟩
  · rw [analyze_portfolio_context, h]
  · exact ⟨synthesize_core _, rfl⟩
  · have hp := stages13_preserve (Except.error e) (Except.error e) (Except.error e) s
    have hcond : should_analyze_portfolio
        ((analyze_news_sentiment (Except.error e) (perform_technical_analysis (Except.error e)
          (collect_stock_data (Except.error e) s))).portfolio) = false := by
      rw [hp.1]; exact h
    simp only [runPipeline]
    rw [hcond]
    simp only [Bool.false_eq_true, if_false]
    simp [collect_stock_data, perform_technical_analysis, analyze_news_sentiment,
      synthesize_recommendation, List.length_append]

/-- C9 witness: with the portfolio absent and all three fetches failing, the
pipeline still produces a populated analysis result and exactly four new
messages; and the synthesize stage contains an injected failure. -/
theorem C9_stage_error_containment_witness :
    (∃ r, (runPipeline (Except.error "boom") (Except.error "boom") (Except.error "boom") none
        (initialState "TSLA" none)).analysis_result = Slot.ok r) ∧
    (runPipeline (Except.error "boom") (Except.error "boom") (Except.error "boom") none
        (initialState "TSLA" none)).messages.length
      = (initialState "TSLA" none).messages.length + 4 ∧
    (analyze_portfolio_context (initialState "TSLA" none)).portfolio_context
      ≠ Slot.error "unreached" := by
  refine ⟨(C9_stage_error_containment "boom" (initialState "TSLA" none)).2.2.2.2.2.1,
          (C9_stage_error_containment "boom" (initialState "TSLA" none)).2.2.2.2.2.2 rfl, ?_⟩
  decide

/-- At most `fuel` assistant turns are consumed. -/
lemma agentLoopAux_le (invoke : List Msg → AssistantTurn) (execTool : ToolCall → String) :
    ∀ fuel msgs, (agentLoopAux invoke execTool fuel msgs).2 ≤ fuel := by
  intro fuel
  induction fuel with
  | zero => intro msgs; simp [agentLoopAux]
  | succ n ih =>
      intro msgs
      cases n with
      | zero =>
          by_cases h : (invoke msgs).tool_calls.isEmpty <;> simp [agentLoopAux, h]
      | succ m =>
          by_cases h : (invoke msgs).tool_calls.isEmpty
          · simp [agentLoopAux, h]
          · have hrec := ih (loopStep invoke execTool msgs)
            simp only [agentLoopAux, h, Bool.false_eq_true, if_false]
            omega

/-- A turn that still requests tools burns one iteration and recurses on the
grown transcript. -/
lemma agentLoopAux_step (invoke : List Msg → AssistantTurn) (execTool : ToolCall → String)
    (n : Nat) (msgs : List Msg) (h : (invoke msgs).tool_calls ≠ []) :
    agentLoopAux invoke execTool (n + 2) msgs
      = ((agentLoopAux invoke execTool (n + 1) (loopStep invoke execTool msgs)).1,
         (agentLoopAux invoke execTool (n + 1) (loopStep invoke execTool msgs)).2 + 1) := by
  have h' : (invoke msgs).tool_calls.isEmpty = false := by
    cases hm : (invoke msgs).tool_calls with
    | nil => exact absurd hm h
    | cons a t => rfl
  simp [agentLoopAux, h']

/-- On the last permitted iteration the loop ends with that turn's content
whether or not it requested tools (the `for`'s `else` arm). -/
lemma agentLoopAux_last (invoke : List Msg → AssistantTurn) (execTool : ToolCall → String)
    (msgs : List Msg) :
    agentLoopAux invoke execTool 1 msgs = ((invoke msgs).content, 1) := by
  by_cases h : (invoke msgs).tool_calls.isEmpty <;> simp [agentLoopAux, h]

/-- C6: the tool-calling loop of `analyze_stock` consumes at most 6
assistant turns; it stops at the first turn without tool calls, returning
that turn's content after exactly one iteration when the first reply is
tool-free; and when every reply requests tools it terminates after exactly
6 iterations with the 6th (last) assistant turn's content — never an error,
never an unbounded loop. -/
theorem C6_agent_loop_bounded (invoke : List Msg → AssistantTurn)
    (execTool : ToolCall → String) (msgs : List Msg) :
    (analyze_stock_loop invoke execTool msgs).2 ≤ 6 ∧
    ((invoke msgs).tool_calls = [] →
        analyze_stock_loop invoke execTool msgs = ((invoke msgs).content, 1)) ∧
    ((∀ m, (invoke m).tool_calls ≠ []) →
        analyze_stock_loop invoke execTool msgs
          = ((invoke (loopStep invoke execTool (loopStep invoke execTool (loopStep invoke execTool
              (loopStep invoke execTool (loopStep invoke execTool msgs)))))).content, 6)) := by
  refine ⟨agentLoopAux_le invoke execTool 6 msgs, fun h => ?_, fun h => ?_⟩
  · simp [analyze_stock_loop, agentLoopAux, h]
  · rw [analyze_stock_loop]
    rw [agentLoopAux_step invoke execTool 4 msgs (h msgs)]
    rw [agentLoopAux_step invoke execTool 3 _ (h _)]
    rw [agentLoopAux_step invoke execTool 2 _ (h _)]
    rw [agentLoopAux_step invoke execTool 1 _ (h _)]
    rw [agentLoopAux_step invoke execTool 0 _ (h _)]
    rw [agentLoopAux_last invoke execTool _]

/-- C6 witness: a reasoner that immediately answers stops after 1 turn with
its answer; a reasoner that always requests one tool call is cut off after
exactly 6 turns with the last turn's content. -/
theorem C6_agent_loop_bounded_witness :
    analyze_stock_loop (fun _ => ⟨"done", []⟩) (fun _ => "out") [] = ("done", 1) ∧
    analyze_stock_loop (fun _ => ⟨"again", [⟨"get_news", "{}", "1"⟩]⟩) (fun _ => "out") []
      = ("again", 6) := by
  refine ⟨(C6_agent_loop_bounded (fun _ => ⟨"done", []⟩) (fun _ => "out") []).2.1 rfl, ?_⟩
  exact (C6_agent_loop_bounded (fun _ => ⟨"again", [⟨"get_news", "{}", "1"⟩]⟩)
      (fun _ => "out") []).2.2 (fun m => List.cons_ne_nil _ _)

/-- C1 witness: with a null portfolio, and with a portfolio that is an empty
dict, the routing predicate is false and the pipeline leaves
`portfolio_context` unset. -/
theorem C1_portfolio_routing_witness :
    should_analyze_portfolio none = false ∧
    (runPipeline (Except.error "e") (Except.error "e") (Except.error "e") none
        (initialState "MSFT" none)).portfolio_context = Slot.unset ∧
    (runPipeline (Except.error "e") (Except.error "e") (Except.error "e") none
        (initialState "MSFT" (some ⟨[], [], 0⟩))).portfolio_context = Slot.unset := by
  refine ⟨rfl, ?_, ?_⟩
  · exact (C1_portfolio_routing none "MSFT" (Except.error "e") (Except.error "e")
      (Except.error "e") none).2.2.1 rfl
  · exact (C1_portfolio_routing (some ⟨[], [], 0⟩) "MSFT" (Except.error "e") (Except.error "e")
      (Except.error "e") none).2.2.2 ⟨[], [], 0⟩ rfl rfl

/-- C2 witness: the tool's labels at 0.2, −0.2 and the boundary 0.15, and a
one-item pipeline feed whose average equals the mean of its per-item
scores. -/
theorem C2_sentiment_aggregation_witness :
    get_news_sentiment_label 0.2 = "正面" ∧
    get_news_sentiment_label (-(0.2 : ℚ)) = "负面" ∧
    get_news_sentiment_label 0.15 = "中性" ∧
    (sentimentSummaryOf [⟨"neutral", 0.2⟩]).average_score
      = spec_mean_of_scores (([⟨"neutral", 0.2⟩] : List NewsItem).map
          (fun n => n.overall_sentiment_score)) := by
  have h := C2_sentiment_aggregation "AAPL" 5 [] [⟨"neutral", 0.2⟩]
  exact ⟨(h.2.1 0.2).1 (by norm_num), (h.2.1 (-(0.2 : ℚ))).2.1 (by norm_num),
         (h.2.1 0.15).2.2 (by norm_num) le_rfl,
         h.2.2.2.1 (List.cons_ne_nil _ _) (by norm_num)⟩
